import Mathlib

/-!
Verification development for the cycle-driven test orchestration engine of
Kaleidoscope-Testing (`src/Driver.h`, `src/Simulator.h`, and the assertion
leaf classes).  The `Driver` variant is embedded in full; the `Simulator`
variant shares the same engine (identical inline bodies for
`evaluateAssertionsInternal`, `error`, the queue accessors and the time
machinery), so theorems are stated over the single-channel `Driver` model.

Methods whose bodies are inline in the headers (`evaluateAssertionsInternal`,
`error`, `getErrorCount`, `setErrorIfReportWithoutQueuedAssertions`,
`ReportNthInCycle::evalInternal`, `AnyKeycodeActive::evalInternal`, the
accessors) are translated from the source.  Methods that the headers only
declare (`cycleInternal`, `processKeyboardReport`, `multiTapKey`, `tapKey`,
`pressKey`, `releaseKey`, `advanceTime`, `cycleTo`, `skipTimeInternal`,
`assertNothingQueued`, `cyclesInternal`, `Assertion_::report`) are modelled
from the specification; each such definition carries a doc comment starting
with `Modelled from the spec:`.

Ghost instrumentation (the `evaluated`, `reported`, `drained_report`,
`drained_cycle` and `trace` fields) records the observable evaluation and
event history; no modelled operation reads these fields.
-/

namespace Kaleidoscope

/-- Kind of an assertion leaf predicate.  `constP b` stands for an arbitrary
leaf predicate whose outcome in the current context is `b` (leaf predicates
are opaque to the orchestrator); `reportNthInCycle` and `anyKeycodeActive`
are the two leaf classes present in the sources. -/
inductive AssertionKind where
  | constP : Bool → AssertionKind
  | reportNthInCycle : Int → AssertionKind
  | anyKeycodeActive : AssertionKind
deriving DecidableEq, Repr

/-- An assertion object: a ghost identity (standing for the C++ object
identity of the `shared_ptr<_Assertion>`) together with its predicate kind. -/
structure Assertion where
  id : Nat
  kind : AssertionKind
deriving DecidableEq, Repr

/-- A keyboard report snapshot, exposing the read-only query used by the
`AnyKeycodeActive` leaf assertion (`KeyboardReport::isAnyKeyActive`). -/
structure KeyboardReport where
  any_key_active : Bool
deriving DecidableEq, Repr

/-- Observable events of a run: key press/release, completion of one scan
cycle, and evaluation of an assertion (by ghost id). -/
inductive Event where
  | press : Nat → Nat → Event
  | release : Nat → Nat → Event
  | cycleE : Event
  | evalE : Nat → Event
deriving DecidableEq, Repr

/-- State of the `Driver` orchestrator (`src/Driver.h`, lines 150-518):
configuration flags, counters, simulated time, the four assertion queues,
the current report, the key matrix, the output sink, plus ghost trace
fields.  `aborted` models that the run has been terminated by the
abort-on-first-error policy: once set, no further statement of the run
executes. -/
structure Driver where
  debug : Bool
  cycle_duration : Int
  abort_on_first_error : Bool
  assertions_passed : Bool
  n_keyboard_reports_in_cycle : Int
  n_overall_keyboard_reports : Int
  cycle_id : Int
  time : Int
  error_count : Nat
  error_if_report_without_queued_assertions : Bool
  queued_keyboard_report_assertions : List Assertion
  permanent_keyboard_report_assertions : List Assertion
  queued_cycle_assertions : List Assertion
  permanent_cycle_assertions : List Assertion
  current_keyboard_report : KeyboardReport
  pressed_keys : List (Nat × Nat)
  out_log : List String
  aborted : Bool
  evaluated : List Nat
  reported : List Nat
  drained_report : List Nat
  drained_cycle : List Nat
  trace : List Event
deriving DecidableEq, Repr

/-- Constructor `Driver::Driver(out, debug, cycle_duration, abort_on_first_error)`
(Driver.h, lines 209-212) with the member initializers of lines 163-178. -/
def mkDriver (debug : Bool) (cycle_duration : Int) (abort_on_first_error : Bool) : Driver :=
  { debug := debug
    cycle_duration := cycle_duration
    abort_on_first_error := abort_on_first_error
    assertions_passed := true
    n_keyboard_reports_in_cycle := 0
    n_overall_keyboard_reports := 0
    cycle_id := 0
    time := 0
    error_count := 0
    error_if_report_without_queued_assertions := false
    queued_keyboard_report_assertions := []
    permanent_keyboard_report_assertions := []
    queued_cycle_assertions := []
    permanent_cycle_assertions := []
    current_keyboard_report := { any_key_active := false }
    pressed_keys := []
    out_log := []
    aborted := false
    evaluated := []
    reported := []
    drained_report := []
    drained_cycle := []
    trace := [] }

/-- `Driver::error` (Driver.h, lines 370-373): retrieving the error stream
increments the mutable error counter; the stream itself is the driver's
output sink. -/
def Driver.error (s : Driver) : Driver :=
  { s with error_count := s.error_count + 1 }

/-- Writing a message through a retrieved stream (`ErrorStream::operator<<`,
Driver.h, lines 82-86): output goes to the sink; the counter is untouched. -/
def streamWrite (s : Driver) (msg : String) : Driver :=
  { s with out_log := s.out_log ++ [msg] }

/-- `Driver::getErrorCount` (Driver.h, line 377). -/
def getErrorCount (s : Driver) : Nat := s.error_count

/-- `Driver::getTime` (Driver.h, line 405). -/
def getTime (s : Driver) : Int := s.time

/-- `Driver::getNumKeyboardReportsInCycle` (Driver.h, line 396); the
`Simulator` variant exposes the same counter as `getNumReportsInCycle`. -/
def getNumKeyboardReportsInCycle (s : Driver) : Int := s.n_keyboard_reports_in_cycle

/-- `Driver::setErrorIfReportWithoutQueuedAssertions` (Driver.h, lines 221-223). -/
def setErrorIfReportWithoutQueuedAssertions (s : Driver) (state : Bool) : Driver :=
  { s with error_if_report_without_queued_assertions := state }

/-- Outcome of evaluating one assertion against the current driver state
(`_Assertion::eval` dispatching to the leaf `evalInternal`).
`reportNthInCycle`: from `ReportNthInCycle.h`, lines 57-59 — compares the
orchestrator's current in-cycle report count with the stored report id.
`anyKeycodeActive`: from `AnyKeycodeActive.h`, lines 50-52.
`constP b`: an opaque leaf predicate whose outcome is `b`. -/
def evalAssertion (s : Driver) (a : Assertion) : Bool :=
  match a.kind with
  | AssertionKind.constP b => b
  | AssertionKind.reportNthInCycle report_id =>
      getNumKeyboardReportsInCycle s == report_id
  | AssertionKind.anyKeycodeActive => s.current_keyboard_report.any_key_active

/-- Modelled from the spec: `_Assertion::report` is not in the sources.  A
failing assertion reports through the error stream (`Driver::error`, which
increments the counter) and, when abort-on-first-error is enabled, the run
is terminated immediately after that failure is reported (spec sections 4.3
and 7).  A passing assertion (reported only in debug mode) reports through
the log stream, which touches no counter. -/
def reportAssertion (assertion_passed : Bool) (a : Assertion) (s : Driver) : Driver :=
  if assertion_passed then
    { s with reported := s.reported ++ [a.id] }
  else
    let s1 := Driver.error s
    let s2 := { s1 with reported := s1.reported ++ [a.id] }
    if s2.abort_on_first_error then { s2 with aborted := true } else s2

/-- Body of the loop of `Driver::evaluateAssertionsInternal` (Driver.h,
lines 496-509): evaluate the assertion, report it if it failed or debug
mode is on, and fold its outcome into `assertions_passed_`.  The `aborted`
guard models that a run already terminated by abort-on-first-error executes
nothing further. -/
def evalOneAssertion (s : Driver) (a : Assertion) : Driver :=
  if s.aborted then s
  else
    let assertion_passed := evalAssertion s a
    let s1 := { s with
      evaluated := s.evaluated ++ [a.id]
      trace := s.trace ++ [Event.evalE a.id] }
    let s2 := if !assertion_passed || s1.debug then reportAssertion assertion_passed a s1 else s1
    { s2 with assertions_passed := s2.assertions_passed && assertion_passed }

/-- `Driver::evaluateAssertionsInternal` (Driver.h, lines 491-510): folds
`evalOneAssertion` over the batch (the early return on an empty container
coincides with the fold over `[]`). -/
def evaluateAssertionsInternal (s : Driver) (assertions : List Assertion) : Driver :=
  assertions.foldl evalOneAssertion s

/-- Modelled from the spec: `Driver::pressKey` (declared Driver.h, line 269;
body not in the sources) mutates the matrix state directly, running no
cycle (spec section 4.4). -/
def pressKey (s : Driver) (row col : Nat) : Driver :=
  { s with
    pressed_keys := s.pressed_keys ++ [(row, col)]
    trace := s.trace ++ [Event.press row col] }

/-- Modelled from the spec: `Driver::releaseKey` (declared Driver.h, line
279; body not in the sources) mutates the matrix state directly, running no
cycle (spec section 4.4). -/
def releaseKey (s : Driver) (row col : Nat) : Driver :=
  { s with
    pressed_keys := s.pressed_keys.filter (fun rc => rc ≠ (row, col))
    trace := s.trace ++ [Event.release row col] }

/-- Modelled from the spec: `Driver::tapKey` (declared Driver.h, line 286;
body not in the sources) is press then release with no cycle advance
between them (spec section 4.4). -/
def tapKey (s : Driver) (row col : Nat) : Driver :=
  releaseKey (pressKey s row col) row col

/-- Modelled from the spec: `Driver::processKeyboardReport` (declared
Driver.h, line 480; body not in the sources) — the per-report dispatch of
spec section 4.3 step 2.  The report count for the cycle is tracked; the
head of the queued channel queue (if any) is drained and evaluated against
this report; every permanent assertion of the channel is evaluated; if no
queued assertion was present and the error-on-unconsumed-queue policy is
enabled, one silent-report error is recorded through the error stream. -/
def processKeyboardReport (s : Driver) (report_data : KeyboardReport) : Driver :=
  if s.aborted then s
  else
    let s1 := { s with
      current_keyboard_report := report_data
      n_keyboard_reports_in_cycle := s.n_keyboard_reports_in_cycle + 1
      n_overall_keyboard_reports := s.n_overall_keyboard_reports + 1 }
    let s2 :=
      match s1.queued_keyboard_report_assertions with
      | [] =>
          if s1.error_if_report_without_queued_assertions then
            streamWrite (Driver.error s1) "Encountered a report without assertions being queued"
          else s1
      | a :: rest =>
          evaluateAssertionsInternal
            { s1 with
              queued_keyboard_report_assertions := rest
              drained_report := s1.drained_report ++ [a.id] }
            [a]
    evaluateAssertionsInternal s2 s2.permanent_keyboard_report_assertions

/-- Sequence of per-report dispatches within one scan (the firmware
callback fires once per emitted report, synchronously and in emission
order, spec section 4.3 step 1). -/
def processReports (s : Driver) (reports : List KeyboardReport) : Driver :=
  reports.foldl processKeyboardReport s

/-- Modelled from the spec: the end-of-cycle phase of `Driver::cycleInternal`
(spec section 4.3 step 3) — pop the single head of the queued cycle
assertion list (if present) and evaluate it, then evaluate every permanent
cycle assertion.  A run already terminated by abort-on-first-error (for
example by a failing report assertion earlier in the same cycle) executes
nothing further. -/
def endCycleAssertions (s : Driver) : Driver :=
  if s.aborted then s
  else
    let s1 :=
      match s.queued_cycle_assertions with
      | [] => s
      | a :: rest =>
          evaluateAssertionsInternal
            { s with
              queued_cycle_assertions := rest
              drained_cycle := s.drained_cycle ++ [a.id] }
            [a]
    evaluateAssertionsInternal s1 s1.permanent_cycle_assertions

/-- Start-of-cycle bookkeeping: the in-cycle report counter starts at 0 at
the beginning of every cycle (spec section 4.3 step 2). -/
def startCycle (s : Driver) : Driver :=
  { s with n_keyboard_reports_in_cycle := 0 }

/-- Modelled from the spec: `Driver::cycleInternal(bool only_log_reports)`
(declared Driver.h, line 484; body not in the sources) — one scan cycle
(spec section 4.3): reset the per-cycle report count, invoke the firmware
scan collaborator (`scan`, indexed by cycle id, yielding the reports it
emits this cycle), dispatch each report in emission order — or, in
only-log-reports mode, merely log the reports, touching no queue and
evaluating no assertion — then run end-of-cycle assertions (skipped in
only-log mode), then increment the cycle id and advance simulated time by
the cycle duration. -/
def cycleInternal (scan : Int → List KeyboardReport) (only_log_reports : Bool)
    (s : Driver) : Driver :=
  if s.aborted then s
  else
    let s1 := startCycle s
    let reports := scan s1.cycle_id
    let s2 :=
      if only_log_reports then
        { s1 with out_log := s1.out_log ++ reports.map (fun _ => "report logged") }
      else
        endCycleAssertions (processReports s1 reports)
    if s2.aborted then s2
    else
      { s2 with
        cycle_id := s2.cycle_id + 1
        time := s2.time + s2.cycle_duration
        trace := s2.trace ++ [Event.cycleE] }

/-- Modelled from the spec: `Driver::cyclesInternal(n, ...)` (declared
Driver.h, lines 516-517; body not in the sources) — run `n` full scan
cycles. -/
def cyclesInternal (scan : Int → List KeyboardReport) (s : Driver) : Nat → Driver
  | 0 => s
  | Nat.succ n => cyclesInternal scan (cycleInternal scan false s) n

/-- Modelled from the spec: `Driver::multiTapKey` (declared Driver.h, lines
299-302; body not in the sources) — repeated exactly `num_taps` times: tap
the key, run `tap_interval_cycles` full cycles, then evaluate the optional
assertion immediately after those cycles, its failure following the same
abort/error policy as any other evaluation (spec section 4.4). -/
def multiTapKey (scan : Int → List KeyboardReport) (s : Driver) (num_taps : Nat)
    (row col : Nat) (tap_interval_cycles : Nat)
    (after_tap_and_cycles_assertion : Option Assertion) : Driver :=
  match num_taps with
  | 0 => s
  | Nat.succ n =>
      let s1 := tapKey s row col
      let s2 := cyclesInternal scan s1 tap_interval_cycles
      let s3 :=
        match after_tap_and_cycles_assertion with
        | none => s2
        | some a => evaluateAssertionsInternal s2 [a]
      multiTapKey scan s3 n row col tap_interval_cycles after_tap_and_cycles_assertion

/-- Modelled from the spec: the time-skipping loop of
`Driver::skipTimeInternal` (declared Driver.h, line 514; body not in the
sources) — run cycles in only-log-reports mode while the current time has
not yet reached the target time (spec section 4.4).  The loop is written
with explicit fuel; `skipTimeInternal` supplies fuel sufficient for any
positive cycle duration. -/
def skipLoop (scan : Int → List KeyboardReport) (target : Int) :
    Nat → Driver → Driver
  | 0, s => s
  | Nat.succ fuel, s =>
      if s.time < target then skipLoop scan target fuel (cycleInternal scan true s)
      else s

/-- Modelled from the spec: `Driver::skipTimeInternal(delta_t)` — skip the
given time interval by running only-log cycles until the target time
`time_ + delta_t` is reached. -/
def skipTimeInternal (scan : Int → List KeyboardReport) (s : Driver)
    (delta_t : Int) : Driver :=
  skipLoop scan (s.time + delta_t) (delta_t.toNat + 1) s

/-- Modelled from the spec: `Driver::advanceTime(delta_t)` (declared
Driver.h, line 333; `Simulator::advanceTimeBy` is its twin) — skip
`delta_t` milliseconds of simulated time. -/
def advanceTime (scan : Int → List KeyboardReport) (s : Driver)
    (delta_t : Int) : Driver :=
  skipTimeInternal scan s delta_t

/-- Modelled from the spec: `Driver::cycleTo(time)` (declared Driver.h,
line 339) — run cycles until the given absolute point in time. -/
def cycleTo (scan : Int → List KeyboardReport) (s : Driver)
    (target_time : Int) : Driver :=
  skipTimeInternal scan s (target_time - s.time)

/-- Modelled from the spec: `Driver::assertNothingQueued` (declared
Driver.h, line 427; body not in the sources) — fails, recording an error
through the error stream, precisely when at least one of the orchestrator's
assertion queues (the channel's queued or permanent queue, or the queued or
permanent cycle queue) is non-empty (spec sections 4.4 and 8). -/
def assertNothingQueued (s : Driver) : Driver :=
  if s.queued_keyboard_report_assertions.isEmpty
     && s.permanent_keyboard_report_assertions.isEmpty
     && s.queued_cycle_assertions.isEmpty
     && s.permanent_cycle_assertions.isEmpty then
    s
  else
    streamWrite (Driver.error s) "Assertions queued"

/-- `ReportNthInCycle(report_id)` leaf assertion (ReportNthInCycle.h) with a
ghost object identity. -/
def mkReportNthInCycle (ghost_id : Nat) (report_id : Int) : Assertion :=
  { id := ghost_id, kind := AssertionKind.reportNthInCycle report_id }

/-- Number of cycles needed to skip a time interval `delta` at cycle
duration `d`: the ceiling of `delta / d`, written on naturals. -/
def ceilCycles (delta d : Int) : Nat :=
  (delta.toNat + d.toNat - 1) / d.toNat

/-! ### Basic lemmas about one evaluation step -/

@[simp]
theorem evaluateAssertionsInternal_nil (s : Driver) :
    evaluateAssertionsInternal s [] = s := rfl

@[simp]
theorem evaluateAssertionsInternal_cons (s : Driver) (a : Assertion) (as : List Assertion) :
    evaluateAssertionsInternal s (a :: as) =
      evaluateAssertionsInternal (evalOneAssertion s a) as := rfl

theorem evalOne_frozen (s : Driver) (a : Assertion) (h : s.aborted = true) :
    evalOneAssertion s a = s := by
  simp [evalOneAssertion, h]

theorem evalList_frozen (as : List Assertion) :
    ∀ s : Driver, s.aborted = true → evaluateAssertionsInternal s as = s := by
  induction as with
  | nil => intro s _; rfl
  | cons a as ih =>
      intro s h
      rw [evaluateAssertionsInternal_cons, evalOne_frozen s a h, ih s h]

theorem evalOne_debug (s : Driver) (a : Assertion) :
    (evalOneAssertion s a).debug = s.debug := by
  simp only [evalOneAssertion, reportAssertion, Driver.error]
  split_ifs <;> rfl

theorem evalOne_abortFlag (s : Driver) (a : Assertion) :
    (evalOneAssertion s a).abort_on_first_error = s.abort_on_first_error := by
  simp only [evalOneAssertion, reportAssertion, Driver.error]
  split_ifs <;> rfl

theorem evalOne_cycleDuration (s : Driver) (a : Assertion) :
    (evalOneAssertion s a).cycle_duration = s.cycle_duration := by
  simp only [evalOneAssertion, reportAssertion, Driver.error]
  split_ifs <;> rfl

theorem evalOne_nInCycle (s : Driver) (a : Assertion) :
    (evalOneAssertion s a).n_keyboard_reports_in_cycle = s.n_keyboard_reports_in_cycle := by
  simp only [evalOneAssertion, reportAssertion, Driver.error]
  split_ifs <;> rfl

theorem evalOne_currentReport (s : Driver) (a : Assertion) :
    (evalOneAssertion s a).current_keyboard_report = s.current_keyboard_report := by
  simp only [evalOneAssertion, reportAssertion, Driver.error]
  split_ifs <;> rfl

theorem evalOne_errPolicy (s : Driver) (a : Assertion) :
    (evalOneAssertion s a).error_if_report_without_queued_assertions =
      s.error_if_report_without_queued_assertions := by
  simp only [evalOneAssertion, reportAssertion, Driver.error]
  split_ifs <;> rfl

theorem evalOne_queuedKB (s : Driver) (a : Assertion) :
    (evalOneAssertion s a).queued_keyboard_report_assertions =
      s.queued_keyboard_report_assertions := by
  simp only [evalOneAssertion, reportAssertion, Driver.error]
  split_ifs <;> rfl

theorem evalOne_permKB (s : Driver) (a : Assertion) :
    (evalOneAssertion s a).permanent_keyboard_report_assertions =
      s.permanent_keyboard_report_assertions := by
  simp only [evalOneAssertion, reportAssertion, Driver.error]
  split_ifs <;> rfl

theorem evalOne_queuedCycle (s : Driver) (a : Assertion) :
    (evalOneAssertion s a).queued_cycle_assertions = s.queued_cycle_assertions := by
  simp only [evalOneAssertion, reportAssertion, Driver.error]
  split_ifs <;> rfl

theorem evalOne_permCycle (s : Driver) (a : Assertion) :
    (evalOneAssertion s a).permanent_cycle_assertions = s.permanent_cycle_assertions := by
  simp only [evalOneAssertion, reportAssertion, Driver.error]
  split_ifs <;> rfl

theorem evalOne_drainedReport (s : Driver) (a : Assertion) :
    (evalOneAssertion s a).drained_report = s.drained_report := by
  simp only [evalOneAssertion, reportAssertion, Driver.error]
  split_ifs <;> rfl

theorem evalOne_drainedCycle (s : Driver) (a : Assertion) :
    (evalOneAssertion s a).drained_cycle = s.drained_cycle := by
  simp only [evalOneAssertion, reportAssertion, Driver.error]
  split_ifs <;> rfl

theorem evalAssertion_evalOne (s : Driver) (b a : Assertion) :
    evalAssertion (evalOneAssertion s b) a = evalAssertion s a := by
  unfold evalAssertion getNumKeyboardReportsInCycle
  rw [evalOne_nInCycle, evalOne_currentReport]

theorem evalOne_evaluated (s : Driver) (a : Assertion) (h : s.aborted = false) :
    (evalOneAssertion s a).evaluated = s.evaluated ++ [a.id] := by
  simp only [evalOneAssertion, reportAssertion, Driver.error, h]
  split_ifs <;> simp_all

theorem evalOne_aborted_of_pass (s : Driver) (a : Assertion)
    (hp : evalAssertion s a = true) :
    (evalOneAssertion s a).aborted = s.aborted := by
  simp only [evalOneAssertion, reportAssertion, Driver.error, hp]
  split_ifs <;> rfl

theorem evalOne_aborted_no_flag (s : Driver) (a : Assertion)
    (hf : s.abort_on_first_error = false) :
    (evalOneAssertion s a).aborted = s.aborted := by
  simp only [evalOneAssertion, reportAssertion, Driver.error, hf]
  split_ifs <;> simp_all

theorem evalOne_reported_pass (s : Driver) (a : Assertion) (h : s.aborted = false)
    (hp : evalAssertion s a = true) :
    (evalOneAssertion s a).reported =
      s.reported ++ (if s.debug then [a.id] else []) := by
  simp only [evalOneAssertion, reportAssertion, Driver.error, h, hp]
  split_ifs <;> simp_all

theorem evalOne_reported_fail (s : Driver) (a : Assertion) (h : s.aborted = false)
    (hf : evalAssertion s a = false) :
    (evalOneAssertion s a).reported = s.reported ++ [a.id] := by
  simp only [evalOneAssertion, reportAssertion, Driver.error, h, hf]
  split_ifs <;> simp_all

theorem evalOne_aborted_fail_flag (s : Driver) (a : Assertion) (h : s.aborted = false)
    (hf : evalAssertion s a = false) (hab : s.abort_on_first_error = true) :
    (evalOneAssertion s a).aborted = true := by
  simp only [evalOneAssertion, reportAssertion, Driver.error, h, hf]
  split_ifs <;> simp_all

theorem evalOne_errorCount_fail (s : Driver) (a : Assertion) (h : s.aborted = false)
    (hf : evalAssertion s a = false) :
    (evalOneAssertion s a).error_count = s.error_count + 1 := by
  simp only [evalOneAssertion, reportAssertion, Driver.error, h, hf]
  split_ifs <;> simp_all

theorem evalOne_errorCount_pass (s : Driver) (a : Assertion)
    (hp : evalAssertion s a = true) :
    (evalOneAssertion s a).error_count = s.error_count := by
  simp only [evalOneAssertion, reportAssertion, Driver.error, hp]
  split_ifs <;> rfl

theorem evalOne_passed_fail (s : Driver) (a : Assertion) (h : s.aborted = false)
    (hf : evalAssertion s a = false) :
    (evalOneAssertion s a).assertions_passed = false := by
  simp only [evalOneAssertion, reportAssertion, Driver.error, h, hf]
  split_ifs <;> simp_all

theorem evalOne_passed_false_mono (s : Driver) (a : Assertion)
    (h : s.assertions_passed = false) :
    (evalOneAssertion s a).assertions_passed = false := by
  simp only [evalOneAssertion, reportAssertion, Driver.error]
  split_ifs <;> simp_all

theorem evalList_passed_false_mono (as : List Assertion) :
    ∀ s : Driver, s.assertions_passed = false →
      (evaluateAssertionsInternal s as).assertions_passed = false := by
  induction as with
  | nil => intro s h; exact h
  | cons a as ih =>
      intro s h
      rw [evaluateAssertionsInternal_cons]
      exact ih _ (evalOne_passed_false_mono s a h)

theorem streamWrite_foldl_errorCount (msgs : List String) :
    ∀ s : Driver, (msgs.foldl streamWrite s).error_count = s.error_count := by
  induction msgs with
  | nil => intro s; rfl
  | cons m ms ih => intro s; rw [List.foldl_cons]; exact ih _

/-- C10: every call to the `error()` accessor increments the global error
count by exactly one at the moment the error stream is retrieved, before
and regardless of any message subsequently written to it, so
`getErrorCount` counts stream retrievals; writing messages alone never
changes the count. -/
theorem c10_error_accessor_counts_retrievals (s : Driver) (msgs : List String) :
    getErrorCount (Driver.error s) = getErrorCount s + 1 ∧
    getErrorCount (msgs.foldl streamWrite (Driver.error s)) = getErrorCount s + 1 ∧
    getErrorCount (msgs.foldl streamWrite s) = getErrorCount s := by
  refine ⟨rfl, ?_, ?_⟩
  · rw [getErrorCount, streamWrite_foldl_errorCount msgs (Driver.error s)]; rfl
  · rw [getErrorCount, streamWrite_foldl_errorCount msgs s]; rfl

/-- C6: `assertNothingQueued()` records an error if and only if at least
one of the orchestrator's assertion queues (the channel's queued or
permanent queue, or the queued or permanent cycle queue) is non-empty at
the moment of the call; when every queue is empty it records no error. -/
theorem c6_assertNothingQueued_iff_queue_nonempty (s : Driver) :
    (getErrorCount (assertNothingQueued s) = getErrorCount s + 1 ↔
       ¬(s.queued_keyboard_report_assertions = [] ∧
         s.permanent_keyboard_report_assertions = [] ∧
         s.queued_cycle_assertions = [] ∧
         s.permanent_cycle_assertions = [])) ∧
    (getErrorCount (assertNothingQueued s) = getErrorCount s ↔
       (s.queued_keyboard_report_assertions = [] ∧
        s.permanent_keyboard_report_assertions = [] ∧
        s.queued_cycle_assertions = [] ∧
        s.permanent_cycle_assertions = [])) := by
  unfold assertNothingQueued getErrorCount streamWrite Driver.error
  split_ifs with h <;>
    simp only [Bool.and_eq_true, List.isEmpty_iff] at h <;>
    simp_all

/-- C2: an assertion whose evaluation returns false increments the global
error counter by exactly one and makes the overall pass/fail flag failed,
and the flag remains failed across any further batch of evaluations; an
assertion whose evaluation returns true leaves the error counter
unchanged. -/
theorem c2_failing_eval_increments_error_count (s : Driver) (a : Assertion)
    (as : List Assertion) (h : s.aborted = false) :
    (evalAssertion s a = false →
       getErrorCount (evalOneAssertion s a) = getErrorCount s + 1 ∧
       (evalOneAssertion s a).assertions_passed = false ∧
       (evaluateAssertionsInternal (evalOneAssertion s a) as).assertions_passed = false) ∧
    (evalAssertion s a = true →
       getErrorCount (evalOneAssertion s a) = getErrorCount s) := by
  constructor
  · intro hf
    refine ⟨evalOne_errorCount_fail s a h hf, evalOne_passed_fail s a h hf, ?_⟩
    exact evalList_passed_false_mono as _ (evalOne_passed_fail s a h hf)
  · intro hp
    exact evalOne_errorCount_pass s a hp

/-- Witness for C2 at a concrete state: a failing opaque assertion on a
fresh driver. -/
theorem c2_failing_eval_increments_error_count_witness :
    (mkDriver false 5 false).aborted = false ∧
    (evalAssertion (mkDriver false 5 false) ⟨0, AssertionKind.constP false⟩ = false →
       getErrorCount (evalOneAssertion (mkDriver false 5 false) ⟨0, AssertionKind.constP false⟩) =
         getErrorCount (mkDriver false 5 false) + 1 ∧
       (evalOneAssertion (mkDriver false 5 false) ⟨0, AssertionKind.constP false⟩).assertions_passed = false ∧
       (evaluateAssertionsInternal
          (evalOneAssertion (mkDriver false 5 false) ⟨0, AssertionKind.constP false⟩)
          []).assertions_passed = false) ∧
    (evalAssertion (mkDriver false 5 false) ⟨0, AssertionKind.constP false⟩ = true →
       getErrorCount (evalOneAssertion (mkDriver false 5 false) ⟨0, AssertionKind.constP false⟩) =
         getErrorCount (mkDriver false 5 false)) :=
  ⟨rfl,
   c2_failing_eval_increments_error_count (mkDriver false 5 false)
     ⟨0, AssertionKind.constP false⟩ [] rfl⟩

/-- C1: with abort-on-first-error enabled, in a batch whose prefix passes
and whose next assertion fails, exactly the prefix and the failing
assertion are evaluated, the failing assertion is the last one reported,
and the run is terminated (aborted) — nothing after the failure is
evaluated or reported. -/
theorem c1_abort_on_first_error_stops_batch (s : Driver) (pre post : List Assertion)
    (a : Assertion)
    (hab : s.abort_on_first_error = true) (hnab : s.aborted = false)
    (hpre : ∀ b ∈ pre, evalAssertion s b = true)
    (ha : evalAssertion s a = false) :
    (evaluateAssertionsInternal s (pre ++ a :: post)).evaluated
        = s.evaluated ++ pre.map Assertion.id ++ [a.id] ∧
    (evaluateAssertionsInternal s (pre ++ a :: post)).reported
        = s.reported ++ (if s.debug then pre.map Assertion.id else []) ++ [a.id] ∧
    (evaluateAssertionsInternal s (pre ++ a :: post)).aborted = true := by
  induction pre generalizing s with
  | nil =>
      simp only [List.nil_append, List.map_nil, evaluateAssertionsInternal_cons]
      have h1 : (evalOneAssertion s a).aborted = true :=
        evalOne_aborted_fail_flag s a hnab ha hab
      rw [evalList_frozen post _ h1]
      refine ⟨?_, ?_, h1⟩
      · rw [evalOne_evaluated s a hnab]; simp
      · rw [evalOne_reported_fail s a hnab ha]; simp
  | cons b pre ih =>
      have hb : evalAssertion s b = true := hpre b (by simp)
      simp only [List.cons_append, evaluateAssertionsInternal_cons]
      have hab1 : (evalOneAssertion s b).abort_on_first_error = true := by
        rw [evalOne_abortFlag]; exact hab
      have hnab1 : (evalOneAssertion s b).aborted = false := by
        rw [evalOne_aborted_of_pass s b hb]; exact hnab
      have hpre1 : ∀ c ∈ pre, evalAssertion (evalOneAssertion s b) c = true := by
        intro c hc
        rw [evalAssertion_evalOne]
        exact hpre c (by simp [hc])
      have ha1 : evalAssertion (evalOneAssertion s b) a = false := by
        rw [evalAssertion_evalOne]; exact ha
      obtain ⟨e1, r1, ab1⟩ := ih (evalOneAssertion s b) hab1 hnab1 hpre1 ha1
      refine ⟨?_, ?_, ab1⟩
      · rw [e1, evalOne_evaluated s b hnab]
        simp
      · rw [r1, evalOne_reported_pass s b hnab hb, evalOne_debug]
        by_cases hd : s.debug <;> simp [hd]

/-- Witness for C1 at a concrete state: abort-on-first-error enabled, a
passing assertion, then a failing one, then one queued behind the failure. -/
theorem c1_abort_on_first_error_stops_batch_witness :
    (mkDriver false 5 true).abort_on_first_error = true ∧
    (mkDriver false 5 true).aborted = false ∧
    (∀ b ∈ [(⟨1, AssertionKind.constP true⟩ : Assertion)],
       evalAssertion (mkDriver false 5 true) b = true) ∧
    evalAssertion (mkDriver false 5 true) ⟨2, AssertionKind.constP false⟩ = false ∧
    ((evaluateAssertionsInternal (mkDriver false 5 true)
        ([⟨1, AssertionKind.constP true⟩] ++
          (⟨2, AssertionKind.constP false⟩ : Assertion) :: [⟨3, AssertionKind.constP true⟩])).evaluated
        = (mkDriver false 5 true).evaluated ++
            [(⟨1, AssertionKind.constP true⟩ : Assertion)].map Assertion.id ++ [2] ∧
     (evaluateAssertionsInternal (mkDriver false 5 true)
        ([⟨1, AssertionKind.constP true⟩] ++
          (⟨2, AssertionKind.constP false⟩ : Assertion) :: [⟨3, AssertionKind.constP true⟩])).reported
        = (mkDriver false 5 true).reported ++
            (if (mkDriver false 5 true).debug then
               [(⟨1, AssertionKind.constP true⟩ : Assertion)].map Assertion.id
             else []) ++ [2] ∧
     (evaluateAssertionsInternal (mkDriver false 5 true)
        ([⟨1, AssertionKind.constP true⟩] ++
          (⟨2, AssertionKind.constP false⟩ : Assertion) :: [⟨3, AssertionKind.constP true⟩])).aborted
        = true) :=
  ⟨rfl, rfl, by decide, rfl,
   c1_abort_on_first_error_stops_batch (mkDriver false 5 true)
     [⟨1, AssertionKind.constP true⟩] [⟨3, AssertionKind.constP true⟩]
     ⟨2, AssertionKind.constP false⟩ rfl rfl (by decide) rfl⟩

/-! ### Frame lemmas for batch evaluation -/

theorem evalList_nInCycle (as : List Assertion) :
    ∀ s : Driver, (evaluateAssertionsInternal s as).n_keyboard_reports_in_cycle =
      s.n_keyboard_reports_in_cycle := by
  induction as with
  | nil => intro s; rfl
  | cons a as ih =>
      intro s; rw [evaluateAssertionsInternal_cons, ih, evalOne_nInCycle]

theorem evalList_queuedKB (as : List Assertion) :
    ∀ s : Driver, (evaluateAssertionsInternal s as).queued_keyboard_report_assertions =
      s.queued_keyboard_report_assertions := by
  induction as with
  | nil => intro s; rfl
  | cons a as ih =>
      intro s; rw [evaluateAssertionsInternal_cons, ih, evalOne_queuedKB]

theorem evalList_permKB (as : List Assertion) :
    ∀ s : Driver, (evaluateAssertionsInternal s as).permanent_keyboard_report_assertions =
      s.permanent_keyboard_report_assertions := by
  induction as with
  | nil => intro s; rfl
  | cons a as ih =>
      intro s; rw [evaluateAssertionsInternal_cons, ih, evalOne_permKB]

theorem evalList_queuedCycle (as : List Assertion) :
    ∀ s : Driver, (evaluateAssertionsInternal s as).queued_cycle_assertions =
      s.queued_cycle_assertions := by
  induction as with
  | nil => intro s; rfl
  | cons a as ih =>
      intro s; rw [evaluateAssertionsInternal_cons, ih, evalOne_queuedCycle]

theorem evalList_permCycle (as : List Assertion) :
    ∀ s : Driver, (evaluateAssertionsInternal s as).permanent_cycle_assertions =
      s.permanent_cycle_assertions := by
  induction as with
  | nil => intro s; rfl
  | cons a as ih =>
      intro s; rw [evaluateAssertionsInternal_cons, ih, evalOne_permCycle]

theorem evalList_drainedReport (as : List Assertion) :
    ∀ s : Driver, (evaluateAssertionsInternal s as).drained_report = s.drained_report := by
  induction as with
  | nil => intro s; rfl
  | cons a as ih =>
      intro s; rw [evaluateAssertionsInternal_cons, ih, evalOne_drainedReport]

theorem evalList_drainedCycle (as : List Assertion) :
    ∀ s : Driver, (evaluateAssertionsInternal s as).drained_cycle = s.drained_cycle := by
  induction as with
  | nil => intro s; rfl
  | cons a as ih =>
      intro s; rw [evaluateAssertionsInternal_cons, ih, evalOne_drainedCycle]

theorem evalList_abortFlag (as : List Assertion) :
    ∀ s : Driver, (evaluateAssertionsInternal s as).abort_on_first_error =
      s.abort_on_first_error := by
  induction as with
  | nil => intro s; rfl
  | cons a as ih =>
      intro s; rw [evaluateAssertionsInternal_cons, ih, evalOne_abortFlag]

theorem evalList_aborted_no_flag (as : List Assertion) :
    ∀ s : Driver, s.abort_on_first_error = false →
      (evaluateAssertionsInternal s as).aborted = s.aborted := by
  induction as with
  | nil => intro s _; rfl
  | cons a as ih =>
      intro s h
      rw [evaluateAssertionsInternal_cons, ih _ (by rw [evalOne_abortFlag]; exact h),
        evalOne_aborted_no_flag s a h]

theorem evalList_errPolicy (as : List Assertion) :
    ∀ s : Driver, (evaluateAssertionsInternal s as).error_if_report_without_queued_assertions =
      s.error_if_report_without_queued_assertions := by
  induction as with
  | nil => intro s; rfl
  | cons a as ih =>
      intro s; rw [evaluateAssertionsInternal_cons, ih, evalOne_errPolicy]

theorem evalList_debug (as : List Assertion) :
    ∀ s : Driver, (evaluateAssertionsInternal s as).debug = s.debug := by
  induction as with
  | nil => intro s; rfl
  | cons a as ih =>
      intro s; rw [evaluateAssertionsInternal_cons, ih, evalOne_debug]

theorem evalList_cycleDuration (as : List Assertion) :
    ∀ s : Driver, (evaluateAssertionsInternal s as).cycle_duration = s.cycle_duration := by
  induction as with
  | nil => intro s; rfl
  | cons a as ih =>
      intro s; rw [evaluateAssertionsInternal_cons, ih, evalOne_cycleDuration]

/-! ### Lemmas about per-report dispatch -/

theorem pkr_frozen (s : Driver) (r : KeyboardReport) (h : s.aborted = true) :
    processKeyboardReport s r = s := by
  simp [processKeyboardReport, h]

theorem pkr_nInCycle (s : Driver) (r : KeyboardReport) (h : s.aborted = false) :
    (processKeyboardReport s r).n_keyboard_reports_in_cycle =
      s.n_keyboard_reports_in_cycle + 1 := by
  rcases hq : s.queued_keyboard_report_assertions with _ | ⟨a, rest⟩ <;>
    simp only [processKeyboardReport, hq] <;>
    split_ifs <;>
    simp_all [evalList_nInCycle, evalOne_nInCycle, streamWrite, Driver.error]

theorem pkr_queue_drain (s : Driver) (r : KeyboardReport) (h : s.aborted = false) :
    (processKeyboardReport s r).queued_keyboard_report_assertions =
      s.queued_keyboard_report_assertions.drop 1 ∧
    (processKeyboardReport s r).drained_report =
      s.drained_report ++ (s.queued_keyboard_report_assertions.take 1).map Assertion.id := by
  rcases hq : s.queued_keyboard_report_assertions with _ | ⟨a, rest⟩ <;>
    simp only [processKeyboardReport, hq] <;>
    split_ifs <;>
    simp_all [evalList_queuedKB, evalList_drainedReport, evalOne_queuedKB,
      evalOne_drainedReport, streamWrite, Driver.error]

theorem pkr_queuedCycle (s : Driver) (r : KeyboardReport) :
    (processKeyboardReport s r).queued_cycle_assertions = s.queued_cycle_assertions := by
  rcases hq : s.queued_keyboard_report_assertions with _ | ⟨a, rest⟩ <;>
    simp only [processKeyboardReport, hq] <;>
    split_ifs <;>
    simp_all [evalList_queuedCycle, evalOne_queuedCycle, streamWrite, Driver.error]

theorem pkr_permCycle (s : Driver) (r : KeyboardReport) :
    (processKeyboardReport s r).permanent_cycle_assertions = s.permanent_cycle_assertions := by
  rcases hq : s.queued_keyboard_report_assertions with _ | ⟨a, rest⟩ <;>
    simp only [processKeyboardReport, hq] <;>
    split_ifs <;>
    simp_all [evalList_permCycle, evalOne_permCycle, streamWrite, Driver.error]

theorem pkr_drainedCycle (s : Driver) (r : KeyboardReport) :
    (processKeyboardReport s r).drained_cycle = s.drained_cycle := by
  rcases hq : s.queued_keyboard_report_assertions with _ | ⟨a, rest⟩ <;>
    simp only [processKeyboardReport, hq] <;>
    split_ifs <;>
    simp_all [evalList_drainedCycle, evalOne_drainedCycle, streamWrite, Driver.error]

theorem pkr_abortFlag (s : Driver) (r : KeyboardReport) :
    (processKeyboardReport s r).abort_on_first_error = s.abort_on_first_error := by
  rcases hq : s.queued_keyboard_report_assertions with _ | ⟨a, rest⟩ <;>
    simp only [processKeyboardReport, hq] <;>
    split_ifs <;>
    simp_all [evalList_abortFlag, evalOne_abortFlag, streamWrite, Driver.error]

theorem pkr_aborted_no_flag (s : Driver) (r : KeyboardReport)
    (hf : s.abort_on_first_error = false) :
    (processKeyboardReport s r).aborted = s.aborted := by
  rcases hq : s.queued_keyboard_report_assertions with _ | ⟨a, rest⟩ <;>
    simp only [processKeyboardReport, hq] <;>
    split_ifs <;>
    simp_all [evalList_aborted_no_flag, evalOne_aborted_no_flag, evalList_abortFlag,
      evalOne_abortFlag, streamWrite, Driver.error]

@[simp]
theorem processReports_nil (s : Driver) : processReports s [] = s := rfl

@[simp]
theorem processReports_cons (s : Driver) (r : KeyboardReport) (rs : List KeyboardReport) :
    processReports s (r :: rs) = processReports (processKeyboardReport s r) rs := rfl

theorem processReports_queue_drain (rs : List KeyboardReport) :
    ∀ s : Driver, s.aborted = false → s.abort_on_first_error = false →
      (processReports s rs).queued_keyboard_report_assertions =
        s.queued_keyboard_report_assertions.drop rs.length ∧
      (processReports s rs).drained_report =
        s.drained_report ++
          (s.queued_keyboard_report_assertions.take rs.length).map Assertion.id := by
  induction rs with
  | nil => intro s _ _; simp
  | cons r rs ih =>
      intro s h hf
      have h1 : (processKeyboardReport s r).aborted = false := by
        rw [pkr_aborted_no_flag s r hf]; exact h
      have h2 : (processKeyboardReport s r).abort_on_first_error = false := by
        rw [pkr_abortFlag]; exact hf
      obtain ⟨e1, d1⟩ := ih (processKeyboardReport s r) h1 h2
      obtain ⟨q0, d0⟩ := pkr_queue_drain s r h
      rw [processReports_cons]
      constructor
      · rw [e1, q0, List.drop_drop]
        congr 1
        simpa using Nat.add_comm 1 rs.length
      · rw [d1, d0, q0, List.append_assoc, ← List.map_append]
        congr 2
        have : rs.length + 1 = 1 + rs.length := Nat.add_comm rs.length 1
        simp only [List.length_cons, this, List.take_add]

theorem processReports_cycleFrame (rs : List KeyboardReport) :
    ∀ s : Driver,
      (processReports s rs).queued_cycle_assertions = s.queued_cycle_assertions ∧
      (processReports s rs).permanent_cycle_assertions = s.permanent_cycle_assertions ∧
      (processReports s rs).drained_cycle = s.drained_cycle ∧
      (processReports s rs).abort_on_first_error = s.abort_on_first_error := by
  induction rs with
  | nil => intro s; exact ⟨rfl, rfl, rfl, rfl⟩
  | cons r rs ih =>
      intro s
      obtain ⟨a1, a2, a3, a4⟩ := ih (processKeyboardReport s r)
      rw [processReports_cons]
      exact ⟨by rw [a1, pkr_queuedCycle], by rw [a2, pkr_permCycle],
        by rw [a3, pkr_drainedCycle], by rw [a4, pkr_abortFlag]⟩

theorem processReports_aborted_no_flag (rs : List KeyboardReport) :
    ∀ s : Driver, s.abort_on_first_error = false →
      (processReports s rs).aborted = s.aborted := by
  induction rs with
  | nil => intro s _; rfl
  | cons r rs ih =>
      intro s hf
      rw [processReports_cons, ih _ (by rw [pkr_abortFlag]; exact hf),
        pkr_aborted_no_flag s r hf]

theorem endCycle_drain (s : Driver) (h : s.aborted = false)
    (hf : s.abort_on_first_error = false) :
    (endCycleAssertions s).queued_cycle_assertions = s.queued_cycle_assertions.drop 1 ∧
    (endCycleAssertions s).drained_cycle =
      s.drained_cycle ++ (s.queued_cycle_assertions.take 1).map Assertion.id ∧
    (endCycleAssertions s).aborted = false ∧
    (endCycleAssertions s).abort_on_first_error = false := by
  rcases hq : s.queued_cycle_assertions with _ | ⟨a, rest⟩ <;>
    simp only [endCycleAssertions, hq] <;>
    split_ifs <;>
    simp_all [evalList_queuedCycle, evalOne_queuedCycle, evalList_drainedCycle,
      evalOne_drainedCycle, evalList_aborted_no_flag, evalOne_aborted_no_flag,
      evalList_abortFlag, evalOne_abortFlag, evalList_permCycle, evalOne_permCycle]

theorem cycleInternal_cycle_drain (scan : Int → List KeyboardReport) (s : Driver)
    (h : s.aborted = false) (hf : s.abort_on_first_error = false) :
    (cycleInternal scan false s).queued_cycle_assertions =
      s.queued_cycle_assertions.drop 1 ∧
    (cycleInternal scan false s).drained_cycle =
      s.drained_cycle ++ (s.queued_cycle_assertions.take 1).map Assertion.id ∧
    (cycleInternal scan false s).aborted = false ∧
    (cycleInternal scan false s).abort_on_first_error = false := by
  have hs1 : (startCycle s).aborted = false := h
  have hs1f : (startCycle s).abort_on_first_error = false := hf
  obtain ⟨b1, b2, b3, b4⟩ :=
    processReports_cycleFrame (scan (startCycle s).cycle_id) (startCycle s)
  have hpa : (processReports (startCycle s) (scan (startCycle s).cycle_id)).aborted = false := by
    rw [processReports_aborted_no_flag _ _ hs1f]; exact hs1
  have hpf : (processReports (startCycle s) (scan (startCycle s).cycle_id)).abort_on_first_error
      = false := by rw [b4]; exact hs1f
  obtain ⟨c1, c2, c3, c4⟩ := endCycle_drain _ hpa hpf
  have t1 : (startCycle s).queued_cycle_assertions = s.queued_cycle_assertions := rfl
  have t2 : (startCycle s).drained_cycle = s.drained_cycle := rfl
  simp only [cycleInternal, h, Bool.false_eq_true, if_false]
  simp only [c3, Bool.false_eq_true, if_false]
  refine ⟨?_, ?_, ?_, ?_⟩ <;>
    simp only [c1, c2, c3, c4, b1, b3, t1, t2]

theorem cyclesInternal_cycle_drain (scan : Int → List KeyboardReport) (n : Nat) :
    ∀ s : Driver, s.aborted = false → s.abort_on_first_error = false →
      (cyclesInternal scan s n).queued_cycle_assertions =
        s.queued_cycle_assertions.drop n ∧
      (cyclesInternal scan s n).drained_cycle =
        s.drained_cycle ++ (s.queued_cycle_assertions.take n).map Assertion.id := by
  induction n with
  | zero => intro s _ _; simp [cyclesInternal]
  | succ n ih =>
      intro s h hf
      obtain ⟨a1, a2, a3, a4⟩ := cycleInternal_cycle_drain scan s h hf
      obtain ⟨e1, d1⟩ := ih (cycleInternal scan false s) a3 a4
      rw [show cyclesInternal scan s (Nat.succ n) =
        cyclesInternal scan (cycleInternal scan false s) n from rfl]
      constructor
      · rw [e1, a1, List.drop_drop]
        congr 1
        exact Nat.add_comm 1 n
      · rw [d1, a2, a1, List.append_assoc, ← List.map_append]
        congr 2
        have : n + 1 = 1 + n := Nat.add_comm n 1
        simp only [this, List.take_add]

/-- C3: queued (one-shot) assertion queues drain in strict FIFO order,
exactly one per triggering event — one per dispatched report for the
channel queue, one per cycle end for the cycle queue — each entry removed
together with its single evaluation, never evaluated twice: after `k`
triggering events the drained-and-evaluated trace has gained exactly the
first `k` entries in insertion order and the queue holds exactly the rest. -/
theorem c3_queued_assertions_fifo (s : Driver) (rs : List KeyboardReport)
    (scan : Int → List KeyboardReport) (n : Nat)
    (h : s.aborted = false) (hf : s.abort_on_first_error = false) :
    ((processReports s rs).queued_keyboard_report_assertions =
        s.queued_keyboard_report_assertions.drop rs.length ∧
     (processReports s rs).drained_report =
        s.drained_report ++
          (s.queued_keyboard_report_assertions.take rs.length).map Assertion.id) ∧
    ((cyclesInternal scan s n).queued_cycle_assertions =
        s.queued_cycle_assertions.drop n ∧
     (cyclesInternal scan s n).drained_cycle =
        s.drained_cycle ++ (s.queued_cycle_assertions.take n).map Assertion.id) :=
  ⟨processReports_queue_drain rs s h hf, cyclesInternal_cycle_drain scan n s h hf⟩

/-- Concrete state for the C3 witness: a fresh driver with two queued
keyboard-report assertions and two queued cycle assertions. -/
def c3WitnessState : Driver :=
  { mkDriver false 5 false with
    queued_keyboard_report_assertions :=
      [⟨1, AssertionKind.constP true⟩, ⟨2, AssertionKind.constP true⟩]
    queued_cycle_assertions :=
      [⟨3, AssertionKind.constP true⟩, ⟨4, AssertionKind.constP true⟩] }

/-- Witness for C3 at a concrete state: one report and one cycle each drain
exactly the first queued entry. -/
theorem c3_queued_assertions_fifo_witness :
    c3WitnessState.aborted = false ∧
    c3WitnessState.abort_on_first_error = false ∧
    (((processReports c3WitnessState
          [{ any_key_active := true }]).queued_keyboard_report_assertions =
        c3WitnessState.queued_keyboard_report_assertions.drop
          ([({ any_key_active := true } : KeyboardReport)]).length ∧
      (processReports c3WitnessState [{ any_key_active := true }]).drained_report =
        c3WitnessState.drained_report ++
          (c3WitnessState.queued_keyboard_report_assertions.take
            ([({ any_key_active := true } : KeyboardReport)]).length).map Assertion.id) ∧
     ((cyclesInternal (fun _ => []) c3WitnessState 1).queued_cycle_assertions =
        c3WitnessState.queued_cycle_assertions.drop 1 ∧
      (cyclesInternal (fun _ => []) c3WitnessState 1).drained_cycle =
        c3WitnessState.drained_cycle ++
          (c3WitnessState.queued_cycle_assertions.take 1).map Assertion.id)) :=
  ⟨rfl, rfl,
   c3_queued_assertions_fifo c3WitnessState [{ any_key_active := true }]
     (fun _ => []) 1 rfl rfl⟩

/-! ### Lemmas for the silent-report error policy -/

theorem pkr_no_queued_effect (s : Driver) (r : KeyboardReport) (h : s.aborted = false)
    (h2 : s.queued_keyboard_report_assertions = [])
    (h3 : s.permanent_keyboard_report_assertions = []) :
    (processKeyboardReport s r).error_count =
      s.error_count + (if s.error_if_report_without_queued_assertions then 1 else 0) ∧
    (processKeyboardReport s r).aborted = false := by
  simp only [processKeyboardReport, h, Bool.false_eq_true, if_false, h2]
  split_ifs <;> simp_all [streamWrite, Driver.error, h3]

theorem endCycle_id_of_empty (s : Driver)
    (h4 : s.queued_cycle_assertions = [])
    (h5 : s.permanent_cycle_assertions = []) :
    endCycleAssertions s = s := by
  simp only [endCycleAssertions, h4]
  split_ifs <;> simp_all [h5]

/-- C4: when the error-if-report-without-queued-assertions policy is
enabled, a cycle producing one report with no assertion queued for the
channel records exactly one error; with the policy disabled the same cycle
records no error. -/
theorem c4_silent_report_policy (scan : Int → List KeyboardReport) (s : Driver)
    (r : KeyboardReport)
    (h : s.aborted = false)
    (h2 : s.queued_keyboard_report_assertions = [])
    (h3 : s.permanent_keyboard_report_assertions = [])
    (h4 : s.queued_cycle_assertions = [])
    (h5 : s.permanent_cycle_assertions = [])
    (h6 : scan s.cycle_id = [r]) :
    (s.error_if_report_without_queued_assertions = true →
       getErrorCount (cycleInternal scan false s) = getErrorCount s + 1) ∧
    (s.error_if_report_without_queued_assertions = false →
       getErrorCount (cycleInternal scan false s) = getErrorCount s) := by
  have hs1 : (startCycle s).aborted = false := h
  have hq1 : (startCycle s).queued_keyboard_report_assertions = [] := h2
  have hp1 : (startCycle s).permanent_keyboard_report_assertions = [] := h3
  obtain ⟨he, ha⟩ := pkr_no_queued_effect (startCycle s) r hs1 hq1 hp1
  have h6a : scan (startCycle s).cycle_id = [r] := h6
  have hqc : (processKeyboardReport (startCycle s) r).queued_cycle_assertions = [] := by
    rw [pkr_queuedCycle]; exact h4
  have hpc : (processKeyboardReport (startCycle s) r).permanent_cycle_assertions = [] := by
    rw [pkr_permCycle]; exact h5
  have hend : endCycleAssertions (processReports (startCycle s)
      (scan (startCycle s).cycle_id)) = processKeyboardReport (startCycle s) r := by
    rw [h6a, processReports_cons, processReports_nil]
    exact endCycle_id_of_empty _ hqc hpc
  simp only [cycleInternal, h, Bool.false_eq_true, if_false, hend, getErrorCount]
  constructor <;> intro hp <;>
    split_ifs <;>
    simp_all [startCycle]

/-- Witness for C4 at concrete states: a fresh driver with the policy
enabled, and one with it disabled, each running one cycle that produces a
single report. -/
theorem c4_silent_report_policy_witness :
    ((setErrorIfReportWithoutQueuedAssertions (mkDriver false 5 false) true).aborted = false ∧
     ((setErrorIfReportWithoutQueuedAssertions (mkDriver false 5 false)
         true).error_if_report_without_queued_assertions = true →
       getErrorCount (cycleInternal (fun _ => [{ any_key_active := true }]) false
         (setErrorIfReportWithoutQueuedAssertions (mkDriver false 5 false) true)) =
       getErrorCount (setErrorIfReportWithoutQueuedAssertions
         (mkDriver false 5 false) true) + 1)) ∧
    ((mkDriver false 5 false).aborted = false ∧
     ((mkDriver false 5 false).error_if_report_without_queued_assertions = false →
       getErrorCount (cycleInternal (fun _ => [{ any_key_active := true }]) false
         (mkDriver false 5 false)) = getErrorCount (mkDriver false 5 false))) :=
  ⟨⟨rfl,
    (c4_silent_report_policy (fun _ => [{ any_key_active := true }])
      (setErrorIfReportWithoutQueuedAssertions (mkDriver false 5 false) true)
      { any_key_active := true } rfl rfl rfl rfl rfl rfl).1⟩,
   ⟨rfl,
    (c4_silent_report_policy (fun _ => [{ any_key_active := true }])
      (mkDriver false 5 false)
      { any_key_active := true } rfl rfl rfl rfl rfl rfl).2⟩⟩

/-- C9: the per-cycle report counter starts at 0 at the beginning of every
cycle and increments by one per report dispatched in that cycle, and the
`ReportNthInCycle(report_id)` assertion evaluates to true at a given moment
if and only if the orchestrator's current count of reports in the cycle
equals `report_id`. -/
theorem c9_report_nth_in_cycle (s : Driver) (r : KeyboardReport) (g : Nat) (rid : Int)
    (h : s.aborted = false) :
    getNumKeyboardReportsInCycle (startCycle s) = 0 ∧
    getNumKeyboardReportsInCycle (processKeyboardReport s r) =
      getNumKeyboardReportsInCycle s + 1 ∧
    (evalAssertion s (mkReportNthInCycle g rid) = true ↔
      getNumKeyboardReportsInCycle s = rid) := by
  refine ⟨rfl, pkr_nInCycle s r h, ?_⟩
  simp [evalAssertion, mkReportNthInCycle, getNumKeyboardReportsInCycle]

/-- Witness for C9 at a concrete state. -/
theorem c9_report_nth_in_cycle_witness :
    (mkDriver false 5 false).aborted = false ∧
    (getNumKeyboardReportsInCycle (startCycle (mkDriver false 5 false)) = 0 ∧
     getNumKeyboardReportsInCycle
         (processKeyboardReport (mkDriver false 5 false) { any_key_active := true }) =
       getNumKeyboardReportsInCycle (mkDriver false 5 false) + 1 ∧
     (evalAssertion (mkDriver false 5 false) (mkReportNthInCycle 7 0) = true ↔
       getNumKeyboardReportsInCycle (mkDriver false 5 false) = 0)) :=
  ⟨rfl, c9_report_nth_in_cycle (mkDriver false 5 false) { any_key_active := true } 7 0 rfl⟩

/-! ### Arithmetic of the time-skipping loop -/

theorem ceilNat_step (x dn : Nat) (hx : 1 ≤ x) (hd : 1 ≤ dn) :
    (x + dn - 1) / dn = ((x - dn) + dn - 1) / dn + 1 := by
  rcases Nat.lt_or_ge x dn with hlt | hge
  · have e0 : x - dn = 0 := by omega
    have e1 : x + dn - 1 = (x - 1) + dn := by omega
    rw [e0, e1, Nat.add_div_right _ (by omega), Nat.div_eq_of_lt (by omega),
      Nat.zero_add, Nat.div_eq_of_lt (by omega)]
  · have e1 : x + dn - 1 = (x - 1) + dn := by omega
    have e2 : (x - dn) + dn - 1 = x - 1 := by omega
    rw [e1, e2, Nat.add_div_right _ (by omega)]

theorem ceilNat_le (x dn : Nat) (hd : 1 ≤ dn) : (x + dn - 1) / dn ≤ x := by
  have h1 : x * 1 ≤ x * dn := Nat.mul_le_mul_left x hd
  have h2 : x + dn - 1 ≤ (dn - 1) + x * dn := by
    have : x ≤ x * dn := by simpa using h1
    omega
  calc (x + dn - 1) / dn ≤ ((dn - 1) + x * dn) / dn := Nat.div_le_div_right h2
    _ = (dn - 1) / dn + x := Nat.add_mul_div_right _ _ (by omega)
    _ = x := by rw [Nat.div_eq_of_lt (by omega), Nat.zero_add]

theorem ceilNat_lower (x dn : Nat) (hd : 1 ≤ dn) : x ≤ (x + dn - 1) / dn * dn := by
  rcases Nat.eq_zero_or_pos x with rfl | hx
  · exact Nat.zero_le _
  · by_contra hcon
    push_neg at hcon
    have h1 : (x + dn - 1) / dn * dn ≤ x - 1 := Nat.le_pred_of_lt hcon
    have h2 : (x + dn - 1) / dn ≤ (x - 1) / dn :=
      (Nat.le_div_iff_mul_le (by omega)).mpr h1
    have e1 : x + dn - 1 = (x - 1) + dn := by omega
    rw [e1, Nat.add_div_right _ (by omega)] at h2
    omega

theorem ceilNat_upper (x dn : Nat) (hd : 1 ≤ dn) : (x + dn - 1) / dn * dn < x + dn := by
  have h1 : (x + dn - 1) / dn * dn ≤ x + dn - 1 := Nat.div_mul_le_self _ _
  exact Nat.lt_of_le_of_lt h1 (by omega)

theorem ceilCycles_step (delta d : Int) (hpos : 0 < delta) (hd : 0 < d) :
    ceilCycles delta d = ceilCycles (delta - d) d + 1 := by
  unfold ceilCycles
  have he : (delta - d).toNat = delta.toNat - d.toNat := by omega
  rw [he]
  exact ceilNat_step delta.toNat d.toNat (by omega) (by omega)

theorem ceilCycles_zero_of_nonpos (delta d : Int) (hd : 0 < d) (h : delta ≤ 0) :
    ceilCycles delta d = 0 := by
  unfold ceilCycles
  have : delta.toNat = 0 := by omega
  rw [this]
  exact Nat.div_eq_of_lt (by omega)

theorem ceilCycles_le_fuel (delta d : Int) (hd : 0 < d) :
    ceilCycles delta d ≤ delta.toNat + 1 := by
  have := ceilNat_le delta.toNat d.toNat (by omega)
  unfold ceilCycles
  omega

theorem cycleInternal_log_time (scan : Int → List KeyboardReport) (s : Driver)
    (h : s.aborted = false) :
    (cycleInternal scan true s).time = s.time + s.cycle_duration ∧
    (cycleInternal scan true s).cycle_duration = s.cycle_duration ∧
    (cycleInternal scan true s).aborted = false := by
  simp [cycleInternal, startCycle, h]

theorem skipLoop_time (scan : Int → List KeyboardReport) (target : Int) :
    ∀ (fuel : Nat) (s : Driver), s.aborted = false → 0 < s.cycle_duration →
      ceilCycles (target - s.time) s.cycle_duration ≤ fuel →
      (skipLoop scan target fuel s).time =
        s.time + (ceilCycles (target - s.time) s.cycle_duration : Int) * s.cycle_duration := by
  intro fuel
  induction fuel with
  | zero =>
      intro s h hd hfuel
      have h0 : ceilCycles (target - s.time) s.cycle_duration = 0 := Nat.le_zero.mp hfuel
      rw [show skipLoop scan target 0 s = s from rfl, h0]
      simp
  | succ fuel ih =>
      intro s h hd hfuel
      by_cases ht : s.time < target
      · rw [show skipLoop scan target (Nat.succ fuel) s =
          (if s.time < target then skipLoop scan target fuel (cycleInternal scan true s)
           else s) from rfl, if_pos ht]
        obtain ⟨e1, e2, e3⟩ := cycleInternal_log_time scan s h
        have hd1 : 0 < (cycleInternal scan true s).cycle_duration := by rw [e2]; exact hd
        have hstep : ceilCycles (target - s.time) s.cycle_duration =
            ceilCycles (target - (cycleInternal scan true s).time)
              (cycleInternal scan true s).cycle_duration + 1 := by
          rw [e1, e2,
            show target - (s.time + s.cycle_duration) =
              (target - s.time) - s.cycle_duration from by ring]
          exact ceilCycles_step _ _ (by omega) hd
        have hfuel1 : ceilCycles (target - (cycleInternal scan true s).time)
            (cycleInternal scan true s).cycle_duration ≤ fuel := by omega
        rw [ih _ e3 hd1 hfuel1, hstep, e1, e2]
        push_cast
        ring
      · rw [show skipLoop scan target (Nat.succ fuel) s =
          (if s.time < target then skipLoop scan target fuel (cycleInternal scan true s)
           else s) from rfl, if_neg ht]
        rw [ceilCycles_zero_of_nonpos _ _ hd (by omega)]
        simp

/-- C5: advancing time by a non-negative interval at a positive cycle
duration runs cycles until the target time is reached: the resulting time
is the initial time plus `ceil(delta_t / cycle_duration)` cycle durations —
the target is reached and overshot by less than one full cycle. -/
theorem c5_advanceTime_ceil (scan : Int → List KeyboardReport) (s : Driver)
    (delta_t : Int) (h : s.aborted = false) (hd : 0 < s.cycle_duration)
    (hdt : 0 ≤ delta_t) :
    getTime (advanceTime scan s delta_t) =
      getTime s + (ceilCycles delta_t s.cycle_duration : Int) * s.cycle_duration ∧
    delta_t ≤ (ceilCycles delta_t s.cycle_duration : Int) * s.cycle_duration ∧
    (ceilCycles delta_t s.cycle_duration : Int) * s.cycle_duration <
      delta_t + s.cycle_duration := by
  have e2 : ((s.cycle_duration.toNat : Nat) : Int) = s.cycle_duration :=
    Int.toNat_of_nonneg hd.le
  have e1 : ((delta_t.toNat : Nat) : Int) = delta_t := Int.toNat_of_nonneg hdt
  refine ⟨?_, ?_, ?_⟩
  · show (skipLoop scan (s.time + delta_t) (delta_t.toNat + 1) s).time = _
    have e3 : s.time + delta_t - s.time = delta_t := by ring
    have h4 : ceilCycles (s.time + delta_t - s.time) s.cycle_duration ≤
        delta_t.toNat + 1 := by
      rw [e3]; exact ceilCycles_le_fuel delta_t s.cycle_duration hd
    have h5 := skipLoop_time scan (s.time + delta_t) (delta_t.toNat + 1) s h hd h4
    rw [h5, e3]
    rfl
  · have hn := ceilNat_lower delta_t.toNat s.cycle_duration.toNat (by omega)
    unfold ceilCycles
    calc delta_t = ((delta_t.toNat : Nat) : Int) := e1.symm
      _ ≤ (((delta_t.toNat + s.cycle_duration.toNat - 1) / s.cycle_duration.toNat : Nat) : Int) *
            ((s.cycle_duration.toNat : Nat) : Int) := by exact_mod_cast hn
      _ = (((delta_t.toNat + s.cycle_duration.toNat - 1) / s.cycle_duration.toNat : Nat) : Int) *
            s.cycle_duration := by rw [e2]
  · have hn := ceilNat_upper delta_t.toNat s.cycle_duration.toNat (by omega)
    unfold ceilCycles
    calc (((delta_t.toNat + s.cycle_duration.toNat - 1) / s.cycle_duration.toNat : Nat) : Int) *
          s.cycle_duration
        = (((delta_t.toNat + s.cycle_duration.toNat - 1) / s.cycle_duration.toNat : Nat) : Int) *
            ((s.cycle_duration.toNat : Nat) : Int) := by rw [e2]
      _ < ((delta_t.toNat : Nat) : Int) + ((s.cycle_duration.toNat : Nat) : Int) := by
            exact_mod_cast hn
      _ = delta_t + s.cycle_duration := by rw [e1, e2]

/-- Witness for C5 at a concrete state: advancing 12 ms at a 5 ms cycle
duration. -/
theorem c5_advanceTime_ceil_witness :
    (mkDriver false 5 false).aborted = false ∧
    (0 : Int) < (mkDriver false 5 false).cycle_duration ∧
    (0 : Int) ≤ 12 ∧
    (getTime (advanceTime (fun _ => []) (mkDriver false 5 false) 12) =
       getTime (mkDriver false 5 false) +
         (ceilCycles 12 (mkDriver false 5 false).cycle_duration : Int) *
           (mkDriver false 5 false).cycle_duration ∧
     (12 : Int) ≤ (ceilCycles 12 (mkDriver false 5 false).cycle_duration : Int) *
         (mkDriver false 5 false).cycle_duration ∧
     (ceilCycles 12 (mkDriver false 5 false).cycle_duration : Int) *
         (mkDriver false 5 false).cycle_duration <
       12 + (mkDriver false 5 false).cycle_duration) :=
  ⟨rfl, by decide, by decide,
   c5_advanceTime_ceil (fun _ => []) (mkDriver false 5 false) 12 rfl
     (by decide) (by decide)⟩

/-! ### Time skipping touches no assertion queue -/

/-- Fields that only-log-reports cycles must leave untouched: every
assertion queue, the ghost evaluation and drain traces, and the error
count. -/
def untouchedByTimeSkipping (t s : Driver) : Prop :=
  t.queued_keyboard_report_assertions = s.queued_keyboard_report_assertions ∧
  t.permanent_keyboard_report_assertions = s.permanent_keyboard_report_assertions ∧
  t.queued_cycle_assertions = s.queued_cycle_assertions ∧
  t.permanent_cycle_assertions = s.permanent_cycle_assertions ∧
  t.evaluated = s.evaluated ∧
  t.drained_report = s.drained_report ∧
  t.drained_cycle = s.drained_cycle ∧
  t.error_count = s.error_count

theorem untouched_refl (s : Driver) : untouchedByTimeSkipping s s :=
  ⟨rfl, rfl, rfl, rfl, rfl, rfl, rfl, rfl⟩

theorem untouched_trans (t u v : Driver) (h1 : untouchedByTimeSkipping t u)
    (h2 : untouchedByTimeSkipping u v) : untouchedByTimeSkipping t v := by
  obtain ⟨a1, a2, a3, a4, a5, a6, a7, a8⟩ := h1
  obtain ⟨b1, b2, b3, b4, b5, b6, b7, b8⟩ := h2
  exact ⟨a1.trans b1, a2.trans b2, a3.trans b3, a4.trans b4, a5.trans b5,
    a6.trans b6, a7.trans b7, a8.trans b8⟩

theorem cycleInternal_log_untouched (scan : Int → List KeyboardReport) (s : Driver) :
    untouchedByTimeSkipping (cycleInternal scan true s) s := by
  unfold untouchedByTimeSkipping
  simp only [cycleInternal, startCycle]
  split_ifs <;> simp_all

theorem skipLoop_untouched (scan : Int → List KeyboardReport) (target : Int)
    (fuel : Nat) : ∀ s : Driver, untouchedByTimeSkipping (skipLoop scan target fuel s) s := by
  induction fuel with
  | zero => intro s; exact untouched_refl s
  | succ fuel ih =>
      intro s
      rw [show skipLoop scan target (Nat.succ fuel) s =
        (if s.time < target then skipLoop scan target fuel (cycleInternal scan true s)
         else s) from rfl]
      split_ifs with ht
      · exact untouched_trans _ _ _ (ih (cycleInternal scan true s))
          (cycleInternal_log_untouched scan s)
      · exact untouched_refl s

/-- C8: every cycle run by the time-skipping path (`advanceTime` /
`cycleTo`) runs in only-log-reports mode: no queued assertion is consumed,
no permanent assertion is evaluated, no error is recorded, and all
assertion queues are unchanged. -/
theorem c8_time_skipping_only_logs (scan : Int → List KeyboardReport) (s : Driver)
    (delta_t target_time : Int) :
    untouchedByTimeSkipping (advanceTime scan s delta_t) s ∧
    untouchedByTimeSkipping (cycleTo scan s target_time) s :=
  ⟨skipLoop_untouched scan (s.time + delta_t) (delta_t.toNat + 1) s,
   skipLoop_untouched scan (s.time + (target_time - s.time))
     ((target_time - s.time).toNat + 1) s⟩

/-! ### The multi-tap interleaving -/

/-- A state in which no assertion is queued or registered, the run has not
been aborted, and abort-on-first-error is off. -/
def quietState (s : Driver) : Prop :=
  s.aborted = false ∧ s.abort_on_first_error = false ∧
  s.queued_keyboard_report_assertions = [] ∧
  s.permanent_keyboard_report_assertions = [] ∧
  s.queued_cycle_assertions = [] ∧
  s.permanent_cycle_assertions = []

theorem evalOne_trace (s : Driver) (a : Assertion) (h : s.aborted = false) :
    (evalOneAssertion s a).trace = s.trace ++ [Event.evalE a.id] := by
  simp only [evalOneAssertion, reportAssertion, Driver.error, h]
  split_ifs <;> simp_all

theorem evalOne_quiet (s : Driver) (a : Assertion) (hq : quietState s) :
    quietState (evalOneAssertion s a) := by
  obtain ⟨h1, h2, h3, h4, h5, h6⟩ := hq
  exact ⟨by rw [evalOne_aborted_no_flag s a h2]; exact h1,
    by rw [evalOne_abortFlag]; exact h2,
    by rw [evalOne_queuedKB]; exact h3,
    by rw [evalOne_permKB]; exact h4,
    by rw [evalOne_queuedCycle]; exact h5,
    by rw [evalOne_permCycle]; exact h6⟩

theorem tapKey_effect (s : Driver) (row col : Nat) :
    (tapKey s row col).trace = s.trace ++ [Event.press row col, Event.release row col] ∧
    (quietState s → quietState (tapKey s row col)) := by
  constructor
  · simp [tapKey, pressKey, releaseKey]
  · intro hq
    obtain ⟨h1, h2, h3, h4, h5, h6⟩ := hq
    exact ⟨h1, h2, h3, h4, h5, h6⟩

theorem cycleInternal_quiet_effect (scan : Int → List KeyboardReport) (s : Driver)
    (hq : quietState s) (hscan : scan s.cycle_id = []) :
    (cycleInternal scan false s).trace = s.trace ++ [Event.cycleE] ∧
    quietState (cycleInternal scan false s) := by
  obtain ⟨h1, h2, h3, h4, h5, h6⟩ := hq
  have hend : endCycleAssertions (startCycle s) = startCycle s :=
    endCycle_id_of_empty (startCycle s) h5 h6
  have hrw : cycleInternal scan false s =
      { startCycle s with
        cycle_id := (startCycle s).cycle_id + 1
        time := (startCycle s).time + (startCycle s).cycle_duration
        trace := (startCycle s).trace ++ [Event.cycleE] } := by
    simp only [cycleInternal, h1, Bool.false_eq_true, if_false]
    rw [show scan (startCycle s).cycle_id = [] from hscan, processReports_nil, hend]
    rw [if_neg (by show ¬(startCycle s).aborted = true; simp [startCycle, h1])]
  rw [hrw]
  exact ⟨rfl, h1, h2, h3, h4, h5, h6⟩

theorem cyclesInternal_quiet_effect (scan : Int → List KeyboardReport)
    (hscan : ∀ i, scan i = []) (k : Nat) :
    ∀ s : Driver, quietState s →
      (cyclesInternal scan s k).trace = s.trace ++ List.replicate k Event.cycleE ∧
      quietState (cyclesInternal scan s k) := by
  induction k with
  | zero => intro s hq; exact ⟨by simp [cyclesInternal], hq⟩
  | succ k ih =>
      intro s hq
      obtain ⟨e1, q1⟩ := cycleInternal_quiet_effect scan s hq (hscan s.cycle_id)
      obtain ⟨e2, q2⟩ := ih (cycleInternal scan false s) q1
      refine ⟨?_, q2⟩
      rw [show cyclesInternal scan s (Nat.succ k) =
        cyclesInternal scan (cycleInternal scan false s) k from rfl, e2, e1,
        List.append_assoc]
      simp [List.replicate_succ]

/-- One round of `multiTapKey`: tap (press, release), `k` full cycles, then
the optional assertion evaluation. -/
def tapRound (row col : Nat) (k : Nat) (oa : Option Assertion) : List Event :=
  Event.press row col :: Event.release row col ::
    (List.replicate k Event.cycleE ++
      (match oa with
       | none => []
       | some a => [Event.evalE a.id]))

def isPressEvent : Event → Bool
  | Event.press _ _ => true
  | _ => false

def isCycleEvent : Event → Bool
  | Event.cycleE => true
  | _ => false

theorem countP_replicate (p : Event → Bool) (n : Nat) (e : Event) :
    (List.replicate n e).countP p = if p e then n else 0 := by
  induction n with
  | zero => simp
  | succ n ih =>
      rw [List.replicate_succ, List.countP_cons]
      split_ifs with h <;> simp_all

theorem countP_join_replicate (p : Event → Bool) (n : Nat) (l : List Event) :
    ((List.replicate n l).join).countP p = n * l.countP p := by
  induction n with
  | zero => simp
  | succ n ih =>
      rw [List.replicate_succ,
        show ((l :: List.replicate n l).join) = l ++ (List.replicate n l).join from rfl,
        List.countP_append, ih, Nat.succ_mul, Nat.add_comm]

theorem multiTapKey_trace (scan : Int → List KeyboardReport)
    (hscan : ∀ i, scan i = []) (row col : Nat) (k : Nat) (oa : Option Assertion)
    (n : Nat) :
    ∀ s : Driver, quietState s →
      (multiTapKey scan s n row col k oa).trace =
        s.trace ++ (List.replicate n (tapRound row col k oa)).join := by
  induction n with
  | zero => intro s _; simp [multiTapKey]
  | succ n ih =>
      intro s hq
      obtain ⟨t1, q1f⟩ := tapKey_effect s row col
      have q1 := q1f hq
      obtain ⟨t2, q2⟩ := cyclesInternal_quiet_effect scan hscan k (tapKey s row col) q1
      rcases oa with _ | a
      · have step : multiTapKey scan s (Nat.succ n) row col k none =
            multiTapKey scan (cyclesInternal scan (tapKey s row col) k) n row col k none := rfl
        rw [step, ih _ q2, t2, t1]
        simp [tapRound, List.replicate_succ]
      · have hab : (cyclesInternal scan (tapKey s row col) k).aborted = false := q2.1
        have q3 : quietState (evalOneAssertion
            (cyclesInternal scan (tapKey s row col) k) a) := evalOne_quiet _ a q2
        have t3 := evalOne_trace (cyclesInternal scan (tapKey s row col) k) a hab
        have step : multiTapKey scan s (Nat.succ n) row col k (some a) =
            multiTapKey scan
              (evalOneAssertion (cyclesInternal scan (tapKey s row col) k) a)
              n row col k (some a) := rfl
        rw [step, ih _ q3, t3, t2, t1]
        simp [tapRound, List.replicate_succ]

/-- C7: `multiTapKey(n, row, col, k, optionalAssertion)` performs exactly
`n` repetitions of (tap; run exactly `k` cycles; evaluate the optional
assertion), in that interleaving — producing exactly `n` tap events and
`n * k` intervening cycles. -/
theorem c7_multiTapKey_interleaving (scan : Int → List KeyboardReport) (s : Driver)
    (n row col k : Nat) (oa : Option Assertion)
    (hscan : ∀ i, scan i = []) (hq : quietState s) :
    (multiTapKey scan s n row col k oa).trace =
      s.trace ++ (List.replicate n (tapRound row col k oa)).join ∧
    (multiTapKey scan s n row col k oa).trace.countP isPressEvent =
      s.trace.countP isPressEvent + n ∧
    (multiTapKey scan s n row col k oa).trace.countP isCycleEvent =
      s.trace.countP isCycleEvent + n * k := by
  have htr := multiTapKey_trace scan hscan row col k oa n s hq
  have hpress : (tapRound row col k oa).countP isPressEvent = 1 := by
    rcases oa with _ | a <;>
      simp [tapRound, List.countP_cons, List.countP_append, countP_replicate,
        isPressEvent, isCycleEvent]
  have hcycle : (tapRound row col k oa).countP isCycleEvent = k := by
    rcases oa with _ | a <;>
      simp [tapRound, List.countP_cons, List.countP_append, countP_replicate,
        isPressEvent, isCycleEvent]
  refine ⟨htr, ?_, ?_⟩
  · rw [htr, List.countP_append, countP_join_replicate, hpress, Nat.mul_one]
  · rw [htr, List.countP_append, countP_join_replicate, hcycle]

/-- Witness for C7 at a concrete state: three taps with two cycles between
taps on a fresh driver, giving exactly 3 taps and 6 cycles. -/
theorem c7_multiTapKey_interleaving_witness :
    (∀ i : Int, (fun _ : Int => ([] : List KeyboardReport)) i = []) ∧
    quietState (mkDriver false 5 false) ∧
    ((multiTapKey (fun _ => []) (mkDriver false 5 false) 3 1 2 2 none).trace =
       (mkDriver false 5 false).trace ++ (List.replicate 3 (tapRound 1 2 2 none)).join ∧
     (multiTapKey (fun _ => []) (mkDriver false 5 false) 3 1 2 2 none).trace.countP
         isPressEvent = (mkDriver false 5 false).trace.countP isPressEvent + 3 ∧
     (multiTapKey (fun _ => []) (mkDriver false 5 false) 3 1 2 2 none).trace.countP
         isCycleEvent = (mkDriver false 5 false).trace.countP isCycleEvent + 3 * 2) :=
  ⟨fun _ => rfl, ⟨rfl, rfl, rfl, rfl, rfl, rfl⟩,
   c7_multiTapKey_interleaving (fun _ => []) (mkDriver false 5 false) 3 1 2 2 none
     (fun _ => rfl) ⟨rfl, rfl, rfl, rfl, rfl, rfl⟩⟩

end Kaleidoscope
